import Mathlib

/-!
# Shallow embedding of the Packrat hash-state reconciliation engine

This file embeds the state machine implemented in
`src/cpp/session/modules/SessionPackrat.cpp`: the three-tier hash model
(RESOLVED / OBSERVED / COMPUTED per entity), drift detection on file-change
events, the auto-snapshot scheduler (`performAutoSnapshot` /
`pendingSnapshot` / `AutoSnapshot::onCompleted`), action-lifecycle tracking
(`onPackratAction`) and post-action resolution (`resolveStateAfterAction`).

Modelling conventions:
* The process-wide statics (`s_runningPackratAction`, the `pendingSnapshots`
  counter, the `pAutoSnapshot` handle) become fields of one `PackratState`
  record, threaded explicitly through every operation.
* The external world (file-system hash computations, the R `pendingActions`
  call, the project directory) is a `PackratEnv` record of oracles; each
  operation reads from it exactly where the source calls out.
* Outward effects (`emitPackagesChanged` client events, starting an
  auto-snapshot subprocess) are collected in a `List PackratEffect` returned
  alongside the new state.
* Everything runs on one logical control thread, so each event is handled to
  completion before the next; the `DROP_RECURSIVE_CALLS` re-entrancy guard in
  `checkHashes` can therefore never fire in this sequential embedding and is
  not modelled.
* File paths are lists of path components plus a directory flag;
  `FilePath::isWithin` becomes component-list prefix, and
  `realPathsEqual` becomes equality of component lists.
-/

namespace SessionPackrat

/-- Models the `PackratActionType` enum of the source. -/
inductive PackratActionType
  | PACKRAT_ACTION_NONE
  | PACKRAT_ACTION_SNAPSHOT
  | PACKRAT_ACTION_RESTORE
  | PACKRAT_ACTION_CLEAN
  | PACKRAT_ACTION_UNKNOWN
  deriving DecidableEq, Repr

/-- Models the `PackratHashType` enum of the source. -/
inductive PackratHashType
  | HASH_TYPE_LOCKFILE
  | HASH_TYPE_LIBRARY
  deriving DecidableEq, Repr

/-- Models the `PackratHashState` enum of the source: RESOLVED and OBSERVED
are stored, COMPUTED is derived on demand. -/
inductive PackratHashState
  | HASH_STATE_RESOLVED
  | HASH_STATE_OBSERVED
  | HASH_STATE_COMPUTED
  deriving DecidableEq, Repr

/-- Models the `PendingSnapshotAction` enum of the source. -/
inductive PendingSnapshotAction
  | SET_PENDING_SNAPSHOT
  | COMPLETE_SNAPSHOT
  deriving DecidableEq, Repr

open PackratActionType PackratHashType PackratHashState

/-- Models `packratAction`: parses an action name string into the enum. -/
def packratAction (str : String) : PackratActionType :=
  if str = "snapshot" then PACKRAT_ACTION_SNAPSHOT
  else if str = "restore" then PACKRAT_ACTION_RESTORE
  else if str = "clean" then PACKRAT_ACTION_CLEAN
  else PACKRAT_ACTION_UNKNOWN

/-- Models `packratActionName`: renders the enum back to the action name. -/
def packratActionName (action : PackratActionType) : String :=
  match action with
  | PACKRAT_ACTION_SNAPSHOT => "snapshot"
  | PACKRAT_ACTION_RESTORE => "restore"
  | PACKRAT_ACTION_CLEAN => "clean"
  | _ => ""

/-- Outward effects of the module: `emitPackagesChanged` client events, and
starting an auto-snapshot subprocess (`AutoSnapshot::create`, which records
the target hash and spawns the R process). -/
inductive PackratEffect
  | packagesChanged
  | startAutoSnapshot (targetHash : String)
  deriving DecidableEq, Repr

/-- The mutable state of the module: the four stored hash entries of the
project-persistent client state (keyed per `keyOfHashType`), the static
`s_runningPackratAction`, the in-flight auto-snapshot subprocess (the
`pAutoSnapshot` handle while `isRunning()`, holding its target hash), and
the static `pendingSnapshots` counter of `pendingSnapshot`. -/
structure PackratState where
  lockfileObserved : String
  lockfileResolved : String
  libraryObserved : String
  libraryResolved : String
  runningPackratAction : PackratActionType
  autoSnapshotTarget : Option String
  pendingSnapshots : Nat
  deriving DecidableEq, Repr

/-- The external world the module consults: the project directory (as path
components), the lockfile and library hash computations (abstracting the
file-system walks of `computeLockfileHash` / `computeLibraryHash`), and the
`.rs.pendingActions` R call, abstracted as an error flag plus a result-list
length per action type. -/
structure PackratEnv where
  projectDir : List String
  computedLockfileHash : String
  computedLibraryHash : String
  pendingActionsError : PackratActionType → Bool
  pendingActionsLength : PackratActionType → Nat

/-- Models `computeLockfileHash`: the checksum of the lockfile content,
supplied by the environment oracle. -/
def computeLockfileHash (env : PackratEnv) : String :=
  env.computedLockfileHash

/-- Models `computeLibraryHash`: the checksum of the concatenated DESCRIPTION
files of the private library, supplied by the environment oracle. -/
def computeLibraryHash (env : PackratEnv) : String :=
  env.computedLibraryHash

/-- Models `keyOfHashType`: the storage key for a hash type and state. Note
the source maps every non-OBSERVED state (including COMPUTED) to the
"Resolved" key. -/
def keyOfHashType (hashType : PackratHashType) (hashState : PackratHashState) : String :=
  "packrat"
    ++ (if hashType = HASH_TYPE_LOCKFILE then "Lockfile" else "Library")
    ++ (if hashState = HASH_STATE_OBSERVED then "Observed" else "Resolved")

/-- Reads the stored hash entry selected by `keyOfHashType` from the
persistent store (the four string fields of `PackratState`). -/
def getStoredHash (s : PackratState) (hashType : PackratHashType)
    (hashState : PackratHashState) : String :=
  match hashType with
  | HASH_TYPE_LOCKFILE =>
      if hashState = HASH_STATE_OBSERVED then s.lockfileObserved else s.lockfileResolved
  | HASH_TYPE_LIBRARY =>
      if hashState = HASH_STATE_OBSERVED then s.libraryObserved else s.libraryResolved

/-- Writes the stored hash entry selected by `keyOfHashType` (models
`putProjectPersistent`). -/
def putStoredHash (s : PackratState) (hashType : PackratHashType)
    (hashState : PackratHashState) (value : String) : PackratState :=
  match hashType with
  | HASH_TYPE_LOCKFILE =>
      if hashState = HASH_STATE_OBSERVED then { s with lockfileObserved := value }
      else { s with lockfileResolved := value }
  | HASH_TYPE_LIBRARY =>
      if hashState = HASH_STATE_OBSERVED then { s with libraryObserved := value }
      else { s with libraryResolved := value }

/-- Models `getHash`: for COMPUTED delegates to the hash computation, for
stored states reads project-persistent storage (default empty string). -/
def getHash (env : PackratEnv) (s : PackratState) (hashType : PackratHashType)
    (hashState : PackratHashState) : String :=
  if hashState = HASH_STATE_COMPUTED then
    if hashType = HASH_TYPE_LOCKFILE then computeLockfileHash env
    else computeLibraryHash env
  else getStoredHash s hashType hashState

/-- Models `updateHash`: computes the current hash, writes it to the stored
slot only if it differs from the stored value, and returns the new hash
(paired here with the possibly-updated state). -/
def updateHash (env : PackratEnv) (s : PackratState) (hashType : PackratHashType)
    (hashState : PackratHashState) : String × PackratState :=
  let newHash := getHash env s hashType HASH_STATE_COMPUTED
  let oldHash := getHash env s hashType hashState
  if newHash ≠ oldHash then (newHash, putStoredHash s hashType hashState newHash)
  else (newHash, s)

/-- Models `checkHashes`: compares the stored hash against the freshly
computed one and invokes `onMismatch` when they differ. (The
`DROP_RECURSIVE_CALLS` guard cannot fire in this sequential embedding.) -/
def checkHashes (env : PackratEnv) (s : PackratState) (hashType : PackratHashType)
    (hashState : PackratHashState)
    (onMismatch : String → String → PackratState × List PackratEffect) :
    PackratState × List PackratEffect :=
  let oldHash := getHash env s hashType hashState
  let newHash := getHash env s hashType HASH_STATE_COMPUTED
  if oldHash = newHash then (s, [])
  else onMismatch oldHash newHash

/-- Models `isHashUnresolved`: true iff OBSERVED and RESOLVED are both
non-empty and differ. -/
def isHashUnresolved (env : PackratEnv) (s : PackratState)
    (hashType : PackratHashType) : Bool :=
  let observedHash := getHash env s hashType HASH_STATE_OBSERVED
  let resolvedHash := getHash env s hashType HASH_STATE_RESOLVED
  if observedHash = "" ∨ resolvedHash = "" then false
  else observedHash ≠ resolvedHash

/-- Models `getPendingActions` called with a null `pActions` (as in
`resolveStateAfterAction`): returns false if the R call errors or the action
list is empty, true otherwise. -/
def getPendingActions (env : PackratEnv) (action : PackratActionType) : Bool :=
  if env.pendingActionsError action then false
  else if env.pendingActionsLength action = 0 then false
  else true

/-- Models `emitPackagesChanged`: enqueues one `kInstalledPackagesChanged`
client event. -/
def emitPackagesChanged : List PackratEffect :=
  [PackratEffect.packagesChanged]

/-- Models `resolveStateAfterAction`: emits a client refresh if the action
changed the observed store, then, if no pending actions of the completed
action's type remain (per `getPendingActions`, which also reports false on an
R-call error), marks LIBRARY and then LOCKFILE RESOLVED with their freshly
computed hashes. -/
def resolveStateAfterAction (env : PackratEnv) (s : PackratState)
    (action : PackratActionType) (hashType : PackratHashType) :
    PackratState × List PackratEffect :=
  let effects :=
    if getHash env s hashType HASH_STATE_OBSERVED ≠
        getHash env s hashType HASH_STATE_COMPUTED then
      emitPackagesChanged
    else []
  if ¬ getPendingActions env action then
    let s1 := (updateHash env s HASH_TYPE_LIBRARY HASH_STATE_RESOLVED).2
    let s2 := (updateHash env s1 HASH_TYPE_LOCKFILE HASH_STATE_RESOLVED).2
    (s2, effects)
  else (s, effects)

/-- Models `performAutoSnapshot`: if an auto-snapshot subprocess is running,
a request for the same target is ignored and a request for a different
target is queued via `pendingSnapshot(SET_PENDING_SNAPSHOT)`; otherwise a
new subprocess is started bound to the requested hash
(`AutoSnapshot::create`). The `SET_PENDING_SNAPSHOT` branch of
`pendingSnapshot` (whose entire effect is incrementing the pending counter)
is inlined here to break the bounded mutual recursion between the two
functions; `performAutoSnapshot_queues_via_pendingSnapshot` below proves the
inlined branch equal to the call the source makes. -/
def performAutoSnapshot (env : PackratEnv) (s : PackratState) (newHash : String) :
    PackratState × List PackratEffect :=
  match s.autoSnapshotTarget with
  | some target =>
      if target = newHash then (s, [])
      else ({ s with pendingSnapshots := s.pendingSnapshots + 1 }, [])
  | none =>
      ({ s with autoSnapshotTarget := some newHash },
       [PackratEffect.startAutoSnapshot newHash])

/-- Models `pendingSnapshot`: `SET_PENDING_SNAPSHOT` increments the static
pending counter; `COMPLETE_SNAPSHOT` either (when requests are pending)
zeroes the counter and immediately requests a new snapshot at the freshly
computed library hash, or (when none are pending) resolves state after the
completed snapshot. -/
def pendingSnapshot (env : PackratEnv) (s : PackratState)
    (action : PendingSnapshotAction) : PackratState × List PackratEffect :=
  match action with
  | PendingSnapshotAction.SET_PENDING_SNAPSHOT =>
      ({ s with pendingSnapshots := s.pendingSnapshots + 1 }, [])
  | PendingSnapshotAction.COMPLETE_SNAPSHOT =>
      if 0 < s.pendingSnapshots then
        performAutoSnapshot env { s with pendingSnapshots := 0 } (computeLibraryHash env)
      else
        resolveStateAfterAction env s PACKRAT_ACTION_SNAPSHOT HASH_TYPE_LIBRARY

/-- Models the effect of the auto-snapshot subprocess exiting with the given
status, followed by `AutoSnapshot::onCompleted`: the process is no longer
running (so the `pAutoSnapshot && pAutoSnapshot->isRunning()` test in
`performAutoSnapshot` fails from now on, modelled by clearing
`autoSnapshotTarget`); a non-zero exit status returns without further work,
a zero exit status runs `pendingSnapshot(COMPLETE_SNAPSHOT)`. -/
def AutoSnapshot.onCompleted (env : PackratEnv) (s : PackratState)
    (exitStatus : Int) : PackratState × List PackratEffect :=
  let s1 := { s with autoSnapshotTarget := none }
  if exitStatus ≠ 0 then (s1, [])
  else pendingSnapshot env s1 PendingSnapshotAction.COMPLETE_SNAPSHOT

/-- A file path delivered by the watcher, as absolute-path components plus
the directory flag the watcher reports. -/
structure SourceFilePath where
  components : List String
  isDirectory : Bool
  deriving DecidableEq, Repr

/-- Models `FilePath::filename()`: the last path component. -/
def SourceFilePath.filename (p : SourceFilePath) : String :=
  (p.components.getLast?).getD ""

/-- Models `path.parent().filename()`: the next-to-last path component. -/
def SourceFilePath.parentFilename (p : SourceFilePath) : String :=
  (p.components.dropLast.getLast?).getD ""

/-- Models `FilePath::isWithin`: the directory's components are a prefix of
the path's components (equality counts as within). -/
def SourceFilePath.isWithin (p : SourceFilePath) (dir : List String) : Bool :=
  dir.isPrefixOf p.components

/-- The private library directory: `projectDir / "packrat/lib"`
(`kPackratLibPath`). -/
def libraryPath (env : PackratEnv) : List String :=
  env.projectDir ++ ["packrat", "lib"]

/-- Models `onLockfileUpdate`: a lockfile change only refreshes the client
view. -/
def onLockfileUpdate (env : PackratEnv) (s : PackratState)
    (oldHash newHash : String) : PackratState × List PackratEffect :=
  (s, emitPackagesChanged)

/-- Models `onLibraryUpdate`: a library change triggers an auto-snapshot at
the new (freshly computed) library hash unless the lockfile is unresolved,
in which case only a client refresh is emitted. -/
def onLibraryUpdate (env : PackratEnv) (s : PackratState)
    (oldHash newHash : String) : PackratState × List PackratEffect :=
  if ¬ isHashUnresolved env s HASH_TYPE_LOCKFILE then
    performAutoSnapshot env s newHash
  else
    (s, emitPackagesChanged)

/-- Models `onFileChanged`: ignores events while a Packrat action is running;
classifies the path as a lockfile change (filename is `packrat.lock`), or a
library change (within `packrat/lib` and a directory or named `DESCRIPTION`,
excluding entries whose own filename or immediate parent filename is
`manipulate` or `rstudio`), and checks the corresponding OBSERVED hash. -/
def onFileChanged (env : PackratEnv) (s : PackratState) (sourceFilePath : SourceFilePath) :
    PackratState × List PackratEffect :=
  if s.runningPackratAction ≠ PACKRAT_ACTION_NONE then (s, [])
  else if sourceFilePath.filename = "packrat.lock" then
    checkHashes env s HASH_TYPE_LOCKFILE HASH_STATE_OBSERVED (onLockfileUpdate env s)
  else if sourceFilePath.isWithin (libraryPath env) ∧
      (sourceFilePath.isDirectory ∨ sourceFilePath.filename = "DESCRIPTION") then
    if sourceFilePath.filename = "manipulate" ∨
        sourceFilePath.filename = "rstudio" ∨
        sourceFilePath.parentFilename = "manipulate" ∨
        sourceFilePath.parentFilename = "rstudio" then
      (s, [])
    else
      checkHashes env s HASH_TYPE_LIBRARY HASH_STATE_OBSERVED (onLibraryUpdate env s)
  else (s, [])

/-- Models `onPackratAction`: ignores events for other projects
(`realPathsEqual` abstracted to component-list equality); a start event
records the parsed action as `s_runningPackratAction`; a stop event captures
and clears the recorded action and resolves state for RESTORE (lockfile) or
SNAPSHOT (library), doing nothing further for other recorded actions. -/
def onPackratAction (env : PackratEnv) (s : PackratState) (project : List String)
    (action : String) (running : Bool) : PackratState × List PackratEffect :=
  if ¬ (project = env.projectDir) then (s, [])
  else if running then
    ({ s with runningPackratAction := packratAction action }, [])
  else
    let completedAction := s.runningPackratAction
    let s1 := { s with runningPackratAction := PACKRAT_ACTION_NONE }
    match completedAction with
    | PACKRAT_ACTION_RESTORE =>
        resolveStateAfterAction env s1 PACKRAT_ACTION_RESTORE HASH_TYPE_LOCKFILE
    | PACKRAT_ACTION_SNAPSHOT =>
        resolveStateAfterAction env s1 PACKRAT_ACTION_SNAPSHOT HASH_TYPE_LIBRARY
    | _ => (s1, [])

/-- The opaque pending-action lists attached to a status result by
`annotatePendingActions`, abstracted to whether each list was populated. -/
structure AnnotateResult where
  restore_actions : Bool
  snapshot_actions : Bool
  clean_actions : Bool
  deriving DecidableEq, Repr

/-- Models `annotatePendingActions`: updates OBSERVED for LIBRARY then
LOCKFILE to the freshly computed hashes, derives dirtiness against RESOLVED,
and queries pending snapshot actions when the library is dirty, pending
restore actions when the lockfile is dirty, and clean actions always. -/
def annotatePendingActions (env : PackratEnv) (s : PackratState) :
    PackratState × AnnotateResult :=
  let r1 := updateHash env s HASH_TYPE_LIBRARY HASH_STATE_OBSERVED
  let libraryHash := r1.1
  let s1 := r1.2
  let r2 := updateHash env s1 HASH_TYPE_LOCKFILE HASH_STATE_OBSERVED
  let lockfileHash := r2.1
  let s2 := r2.2
  let libraryDirty := libraryHash ≠ getHash env s2 HASH_TYPE_LIBRARY HASH_STATE_RESOLVED
  let lockfileDirty := lockfileHash ≠ getHash env s2 HASH_TYPE_LOCKFILE HASH_STATE_RESOLVED
  (s2,
   { snapshot_actions := libraryDirty ∧ getPendingActions env PACKRAT_ACTION_SNAPSHOT
     restore_actions := lockfileDirty ∧ getPendingActions env PACKRAT_ACTION_RESTORE
     clean_actions := getPendingActions env PACKRAT_ACTION_CLEAN })

/-- Follows the words of the specification claim about watcher
classification: a path is a LOCKFILE change iff its filename is the lockfile
filename; otherwise a LIBRARY change iff it lies within the library root and
is a directory or named `DESCRIPTION`, except that every path under a
reserved library subdirectory (`manipulate` or `rstudio`), at any nesting
depth beneath it, is ignored. -/
def claimClassify (env : PackratEnv) (p : SourceFilePath) : Option PackratHashType :=
  let rel := p.components.drop (libraryPath env).length
  let underReserved : Bool :=
    p.isWithin (libraryPath env) ∧
    (rel.headI = "manipulate" ∨ rel.headI = "rstudio")
  if p.filename = "packrat.lock" then some HASH_TYPE_LOCKFILE
  else if p.isWithin (libraryPath env) ∧
      (p.isDirectory ∨ p.filename = "DESCRIPTION") ∧ ¬ underReserved then
    some HASH_TYPE_LIBRARY
  else none

/-- The classification `onFileChanged` actually implements: as
`claimClassify`, but a library-change candidate is excluded only when the
path's own filename or its immediate parent's filename is a reserved name. -/
def codeClassify (env : PackratEnv) (p : SourceFilePath) : Option PackratHashType :=
  if p.filename = "packrat.lock" then some HASH_TYPE_LOCKFILE
  else if p.isWithin (libraryPath env) ∧
      (p.isDirectory ∨ p.filename = "DESCRIPTION") then
    if p.filename = "manipulate" ∨ p.filename = "rstudio" ∨
        p.parentFilename = "manipulate" ∨ p.parentFilename = "rstudio" then
      none
    else some HASH_TYPE_LIBRARY
  else none

/-! ## Derived views and helper lemmas -/

/-- The pair of stored OBSERVED entries (lockfile, library). -/
def observedHashes (s : PackratState) : String × String :=
  (s.lockfileObserved, s.libraryObserved)

/-- The pair of stored RESOLVED entries (lockfile, library). -/
def resolvedHashes (s : PackratState) : String × String :=
  (s.lockfileResolved, s.libraryResolved)

/-- All four stored hash entries. -/
def storedHashes (s : PackratState) : (String × String) × (String × String) :=
  (observedHashes s, resolvedHashes s)

/-! ## Concrete fixtures used by witnesses and counterexamples -/

/-- An environment with a lockfile hashing to `"aaaa"`, a library hashing to
`"bbbb"`, and a pending-actions oracle that errors on nothing and reports no
remaining actions. -/
def envA : PackratEnv :=
  { projectDir := ["proj"]
    computedLockfileHash := "aaaa"
    computedLibraryHash := "bbbb"
    pendingActionsError := fun _ => false
    pendingActionsLength := fun _ => 0 }

/-- As `envA`, but every pending-actions query fails. -/
def envErr : PackratEnv :=
  { envA with pendingActionsError := fun _ => true }

/-- A fresh project state: no stored hashes, no running action, no
auto-snapshot subprocess, no pending requests. -/
def sIdle : PackratState :=
  { lockfileObserved := ""
    lockfileResolved := ""
    libraryObserved := ""
    libraryResolved := ""
    runningPackratAction := PACKRAT_ACTION_NONE
    autoSnapshotTarget := none
    pendingSnapshots := 0 }

/-- As `sIdle`, but an auto-snapshot subprocess is running toward `"h1"`. -/
def sRunning : PackratState :=
  { sIdle with autoSnapshotTarget := some "h1" }

/-- As `sRunning`, but with two queued snapshot requests. -/
def sPendingTwo : PackratState :=
  { sRunning with pendingSnapshots := 2 }

/-- As `sIdle`, but the lockfile is unresolved (OBSERVED and RESOLVED both
non-empty and different). -/
def sLockUnresolved : PackratState :=
  { sIdle with lockfileObserved := "x", lockfileResolved := "y" }

/-- As `sIdle`, but a clean action is recorded as running. -/
def sCleanRunning : PackratState :=
  { sIdle with runningPackratAction := PACKRAT_ACTION_CLEAN }

/-- The project lockfile `proj/packrat/packrat.lock`. -/
def pLock : SourceFilePath :=
  { components := ["proj", "packrat", "packrat.lock"], isDirectory := false }

/-- A package DESCRIPTION file in the private library. -/
def pLibDesc : SourceFilePath :=
  { components := ["proj", "packrat", "lib", "pkgA", "DESCRIPTION"]
    isDirectory := false }

/-- A directory two levels beneath the reserved `manipulate` library
subdirectory. -/
def pReservedDeep : SourceFilePath :=
  { components := ["proj", "packrat", "lib", "manipulate", "R", "demo"]
    isDirectory := true }

/-- The inlined else-branch of `performAutoSnapshot` is exactly the
`pendingSnapshot(SET_PENDING_SNAPSHOT)` call the source makes. -/
theorem performAutoSnapshot_queues_via_pendingSnapshot (env : PackratEnv)
    (s : PackratState) (newHash target : String)
    (h1 : s.autoSnapshotTarget = some target) (h2 : target ≠ newHash) :
    performAutoSnapshot env s newHash =
      pendingSnapshot env s PendingSnapshotAction.SET_PENDING_SNAPSHOT := by
  simp [performAutoSnapshot, pendingSnapshot, h1, h2]

theorem performAutoSnapshot_storedHashes (env : PackratEnv) (s : PackratState)
    (newHash : String) :
    storedHashes (performAutoSnapshot env s newHash).1 = storedHashes s := by
  unfold performAutoSnapshot
  cases h' : s.autoSnapshotTarget with
  | none => simp [storedHashes, observedHashes, resolvedHashes]
  | some target =>
      by_cases h : target = newHash <;>
        simp [h, storedHashes, observedHashes, resolvedHashes]

theorem onLibraryUpdate_storedHashes (env : PackratEnv) (s : PackratState)
    (oldHash newHash : String) :
    storedHashes (onLibraryUpdate env s oldHash newHash).1 = storedHashes s := by
  unfold onLibraryUpdate
  split_ifs <;>
    first
      | rfl
      | exact performAutoSnapshot_storedHashes env s newHash

theorem checkHashes_storedHashes (env : PackratEnv) (s : PackratState)
    (hashType : PackratHashType) (hashState : PackratHashState)
    (onMismatch : String → String → PackratState × List PackratEffect)
    (h : ∀ a b, storedHashes (onMismatch a b).1 = storedHashes s) :
    storedHashes (checkHashes env s hashType hashState onMismatch).1 =
      storedHashes s := by
  unfold checkHashes
  dsimp only
  split_ifs
  · rfl
  · exact h _ _

theorem getPendingActions_of_error (env : PackratEnv) (action : PackratActionType)
    (h : env.pendingActionsError action = true) :
    getPendingActions env action = false := by
  simp [getPendingActions, h]

theorem resolveStateAfterAction_of_no_pending (env : PackratEnv) (s : PackratState)
    (action : PackratActionType) (hashType : PackratHashType)
    (h : getPendingActions env action = false) :
    (resolveStateAfterAction env s action hashType).1.libraryResolved =
        env.computedLibraryHash ∧
    (resolveStateAfterAction env s action hashType).1.lockfileResolved =
        env.computedLockfileHash := by
  unfold resolveStateAfterAction updateHash getHash putStoredHash getStoredHash
    computeLibraryHash computeLockfileHash
  simp [h]
  split_ifs <;> simp_all

theorem resolveStateAfterAction_of_pending (env : PackratEnv) (s : PackratState)
    (action : PackratActionType) (hashType : PackratHashType)
    (h : getPendingActions env action = true) :
    (resolveStateAfterAction env s action hashType).1 = s := by
  unfold resolveStateAfterAction
  simp [h]

theorem resolveStateAfterAction_observedHashes (env : PackratEnv) (s : PackratState)
    (action : PackratActionType) (hashType : PackratHashType) :
    observedHashes (resolveStateAfterAction env s action hashType).1 =
      observedHashes s := by
  unfold resolveStateAfterAction updateHash getHash putStoredHash getStoredHash
  simp only []
  split_ifs <;> simp_all [observedHashes]

theorem resolveStateAfterAction_runningAction (env : PackratEnv) (s : PackratState)
    (action : PackratActionType) (hashType : PackratHashType) :
    (resolveStateAfterAction env s action hashType).1.runningPackratAction =
      s.runningPackratAction := by
  unfold resolveStateAfterAction updateHash getHash putStoredHash getStoredHash
  simp only []
  split_ifs <;> simp_all

theorem annotatePendingActions_lockfileObserved (env : PackratEnv) (s : PackratState) :
    (annotatePendingActions env s).1.lockfileObserved = env.computedLockfileHash := by
  unfold annotatePendingActions updateHash getHash putStoredHash getStoredHash
    computeLibraryHash computeLockfileHash
  simp only []
  split_ifs <;> simp_all

theorem annotatePendingActions_runningAction (env : PackratEnv) (s : PackratState) :
    (annotatePendingActions env s).1.runningPackratAction = s.runningPackratAction := by
  unfold annotatePendingActions updateHash getHash putStoredHash getStoredHash
  simp only []
  split_ifs <;> simp_all

theorem annotatePendingActions_resolvedHashes (env : PackratEnv) (s : PackratState) :
    resolvedHashes (annotatePendingActions env s).1 = resolvedHashes s := by
  unfold annotatePendingActions updateHash getHash putStoredHash getStoredHash
  simp only []
  split_ifs <;> simp_all [resolvedHashes]

/-! ## Claims -/

/-- C1: at most one auto-snapshot subprocess is active at any time. While a
run toward `target` is active, a `performAutoSnapshot` request for the same
hash is a no-op (no new subprocess, no counter change), and a request for a
different hash starts no subprocess and only increments the pending-request
counter; a subprocess starts only when none is active. -/
theorem performAutoSnapshot_at_most_one_subprocess (env : PackratEnv)
    (s : PackratState) (h : String) :
    (∀ target, s.autoSnapshotTarget = some target →
      ((h = target → performAutoSnapshot env s h = (s, [])) ∧
       (h ≠ target →
        performAutoSnapshot env s h =
          ({ s with pendingSnapshots := s.pendingSnapshots + 1 }, [])))) ∧
    (s.autoSnapshotTarget = none →
      performAutoSnapshot env s h =
        ({ s with autoSnapshotTarget := some h },
         [PackratEffect.startAutoSnapshot h])) := by
  refine ⟨fun target ht => ⟨fun he => ?_, fun hne => ?_⟩, fun hn => ?_⟩
  · simp [performAutoSnapshot, ht, he]
  · simp [performAutoSnapshot, ht, Ne.symm hne]
  · simp [performAutoSnapshot, hn]

/-- Witness for C1: a differing request against the run toward `"h1"` only
increments the counter. -/
theorem performAutoSnapshot_at_most_one_subprocess_witness :
    sRunning.autoSnapshotTarget = some "h1" ∧
    performAutoSnapshot envA sRunning "h2" =
      ({ sRunning with pendingSnapshots := sRunning.pendingSnapshots + 1 }, []) :=
  ⟨rfl,
   ((performAutoSnapshot_at_most_one_subprocess envA sRunning "h2").1 "h1" rfl).2
     (by decide)⟩

/-- C2: when the snapshot subprocess exits with status 0 while the
pending-request counter is positive, the counter resets to 0 and a new
subprocess starts immediately, bound to the library hash computed at that
moment (the environment's current value, not anything captured earlier); no
resolution occurs on that exit (stored hashes untouched, no refresh
event). -/
theorem autoSnapshot_exit_zero_pending_fresh_hash (env : PackratEnv)
    (s : PackratState) (hp : 0 < s.pendingSnapshots) :
    AutoSnapshot.onCompleted env s 0 =
      ({ s with autoSnapshotTarget := some env.computedLibraryHash,
                pendingSnapshots := 0 },
       [PackratEffect.startAutoSnapshot env.computedLibraryHash]) := by
  simp [AutoSnapshot.onCompleted, pendingSnapshot, performAutoSnapshot,
        computeLibraryHash, hp]

/-- Witness for C2: with two queued requests the completion starts one fresh
run toward the currently computed library hash `"bbbb"`. -/
theorem autoSnapshot_exit_zero_pending_fresh_hash_witness :
    0 < sPendingTwo.pendingSnapshots ∧
    AutoSnapshot.onCompleted envA sPendingTwo 0 =
      ({ sPendingTwo with autoSnapshotTarget := some envA.computedLibraryHash,
                          pendingSnapshots := 0 },
       [PackratEffect.startAutoSnapshot envA.computedLibraryHash]) :=
  ⟨by decide, autoSnapshot_exit_zero_pending_fresh_hash envA sPendingTwo (by decide)⟩

/-- C3: when `resolveStateAfterAction` runs and the pending-action query for
the completed action reports none remaining, the stored RESOLVED hash of
both LIBRARY and LOCKFILE is set to the current COMPUTED hash in the same
step; when actions remain, neither is touched — it is never updated for only
one of the two. -/
theorem resolveStateAfterAction_joint_resolution (env : PackratEnv)
    (s : PackratState) (action : PackratActionType) (hashType : PackratHashType) :
    (getPendingActions env action = false →
      ((resolveStateAfterAction env s action hashType).1.libraryResolved =
          env.computedLibraryHash ∧
       (resolveStateAfterAction env s action hashType).1.lockfileResolved =
          env.computedLockfileHash)) ∧
    (getPendingActions env action = true →
      ((resolveStateAfterAction env s action hashType).1.libraryResolved =
          s.libraryResolved ∧
       (resolveStateAfterAction env s action hashType).1.lockfileResolved =
          s.lockfileResolved)) := by
  constructor
  · intro hq
    exact resolveStateAfterAction_of_no_pending env s action hashType hq
  · intro hq
    rw [resolveStateAfterAction_of_pending env s action hashType hq]
    exact ⟨rfl, rfl⟩

/-- Witness for C3: resolving a snapshot with no pending actions sets both
RESOLVED entries to the computed hashes. -/
theorem resolveStateAfterAction_joint_resolution_witness :
    getPendingActions envA PACKRAT_ACTION_SNAPSHOT = false ∧
    ((resolveStateAfterAction envA sIdle PACKRAT_ACTION_SNAPSHOT
        HASH_TYPE_LIBRARY).1.libraryResolved = envA.computedLibraryHash ∧
     (resolveStateAfterAction envA sIdle PACKRAT_ACTION_SNAPSHOT
        HASH_TYPE_LIBRARY).1.lockfileResolved = envA.computedLockfileHash) :=
  ⟨by decide,
   (resolveStateAfterAction_joint_resolution envA sIdle PACKRAT_ACTION_SNAPSHOT
      HASH_TYPE_LIBRARY).1 (by decide)⟩

/-- Counterexample to C4: when the pending-actions query errors during
resolution, `getPendingActions` reports false ("fails open") and the
resolution proceeds, so the stored RESOLVED hash of the library changes —
the RPC failure mode does mutate persisted RESOLVED state. -/
theorem pendingActions_error_mutates_resolved_cex :
    envErr.pendingActionsError PACKRAT_ACTION_SNAPSHOT = true ∧
    (resolveStateAfterAction envErr sIdle PACKRAT_ACTION_SNAPSHOT
        HASH_TYPE_LIBRARY).1.libraryResolved ≠ sIdle.libraryResolved := by
  decide

/-- C4 (amended): a snapshot subprocess exiting with non-zero status leaves
the stored RESOLVED hashes of both entities unchanged and performs no
reaction; but an error from the pending-actions query during resolution is
treated as "no pending actions" (fail open), so resolution proceeds and sets
RESOLVED for both entities to the freshly computed hashes. -/
theorem external_tool_failure_resolved_state :
    (∀ (env : PackratEnv) (s : PackratState) (exitStatus : Int),
       exitStatus ≠ 0 →
       ((AutoSnapshot.onCompleted env s exitStatus).1.libraryResolved =
           s.libraryResolved ∧
        (AutoSnapshot.onCompleted env s exitStatus).1.lockfileResolved =
           s.lockfileResolved ∧
        (AutoSnapshot.onCompleted env s exitStatus).2 = [])) ∧
    (∀ (env : PackratEnv) (s : PackratState) (action : PackratActionType)
        (hashType : PackratHashType),
       env.pendingActionsError action = true →
       ((resolveStateAfterAction env s action hashType).1.libraryResolved =
           env.computedLibraryHash ∧
        (resolveStateAfterAction env s action hashType).1.lockfileResolved =
           env.computedLockfileHash)) := by
  constructor
  · intro env s exitStatus hx
    simp [AutoSnapshot.onCompleted, hx]
  · intro env s action hashType he
    exact resolveStateAfterAction_of_no_pending env s action hashType
      (getPendingActions_of_error env action he)

/-- Witness for C4 (amended): exit status 1 leaves RESOLVED alone; a failing
query during restore resolution rewrites both RESOLVED entries. -/
theorem external_tool_failure_resolved_state_witness :
    ((1 : Int) ≠ 0 ∧
     ((AutoSnapshot.onCompleted envA sRunning 1).1.libraryResolved =
         sRunning.libraryResolved ∧
      (AutoSnapshot.onCompleted envA sRunning 1).1.lockfileResolved =
         sRunning.lockfileResolved ∧
      (AutoSnapshot.onCompleted envA sRunning 1).2 = [])) ∧
    (envErr.pendingActionsError PACKRAT_ACTION_RESTORE = true ∧
     ((resolveStateAfterAction envErr sIdle PACKRAT_ACTION_RESTORE
         HASH_TYPE_LOCKFILE).1.libraryResolved = envErr.computedLibraryHash ∧
      (resolveStateAfterAction envErr sIdle PACKRAT_ACTION_RESTORE
         HASH_TYPE_LOCKFILE).1.lockfileResolved = envErr.computedLockfileHash)) :=
  ⟨⟨by decide, external_tool_failure_resolved_state.1 envA sRunning 1 (by decide)⟩,
   ⟨by decide,
    external_tool_failure_resolved_state.2 envErr sIdle PACKRAT_ACTION_RESTORE
      HASH_TYPE_LOCKFILE (by decide)⟩⟩

/-- Counterexample to C5: with no prior state and lockfile content present
(computed hash non-empty), the first `onFileChanged` for the lockfile does
not store OBSERVED equal to the computed hash, and the second consecutive
call fires another UI refresh instead of being a no-op. -/
theorem checkAndNotify_not_idempotent_cex :
    sIdle.lockfileObserved ≠ envA.computedLockfileHash ∧
    (onFileChanged envA sIdle pLock).1.lockfileObserved ≠
      envA.computedLockfileHash ∧
    (onFileChanged envA (onFileChanged envA sIdle pLock).1 pLock).2 =
      [PackratEffect.packagesChanged] := by
  decide

/-- C5 (amended): the file-change path does not store OBSERVED, so when the
stored OBSERVED lockfile hash differs from the computed one, every
consecutive `onFileChanged` for the lockfile fires one UI refresh and leaves
the state unchanged (the second call reacts again rather than being a
no-op); OBSERVED is brought up to the computed hash only by the annotate
path, after which the call is a no-op. -/
theorem lockfile_check_reacts_until_annotate (env : PackratEnv)
    (s : PackratState) (p : SourceFilePath)
    (hrun : s.runningPackratAction = PACKRAT_ACTION_NONE)
    (hname : p.filename = "packrat.lock")
    (hdiff : s.lockfileObserved ≠ env.computedLockfileHash) :
    onFileChanged env s p = (s, [PackratEffect.packagesChanged]) ∧
    onFileChanged env (onFileChanged env s p).1 p =
      (s, [PackratEffect.packagesChanged]) ∧
    (annotatePendingActions env s).1.lockfileObserved =
      env.computedLockfileHash ∧
    onFileChanged env (annotatePendingActions env s).1 p =
      ((annotatePendingActions env s).1, []) := by
  have h1 : onFileChanged env s p = (s, [PackratEffect.packagesChanged]) := by
    simp [onFileChanged, hrun, hname, checkHashes, getHash, getStoredHash,
      computeLockfileHash, onLockfileUpdate, emitPackagesChanged, hdiff]
  have h3 := annotatePendingActions_lockfileObserved env s
  have hrun' : (annotatePendingActions env s).1.runningPackratAction =
      PACKRAT_ACTION_NONE := by
    rw [annotatePendingActions_runningAction]; exact hrun
  refine ⟨h1, ?_, h3, ?_⟩
  · rw [h1]
    exact h1
  · simp [onFileChanged, hrun', hname, checkHashes, getHash, getStoredHash,
      computeLockfileHash, h3]

/-- Witness for C5 (amended): fresh state, lockfile hashing to `"aaaa"`. -/
theorem lockfile_check_reacts_until_annotate_witness :
    sIdle.lockfileObserved ≠ envA.computedLockfileHash ∧
    (onFileChanged envA sIdle pLock = (sIdle, [PackratEffect.packagesChanged]) ∧
     onFileChanged envA (onFileChanged envA sIdle pLock).1 pLock =
       (sIdle, [PackratEffect.packagesChanged]) ∧
     (annotatePendingActions envA sIdle).1.lockfileObserved =
       envA.computedLockfileHash ∧
     onFileChanged envA (annotatePendingActions envA sIdle).1 pLock =
       ((annotatePendingActions envA sIdle).1, [])) :=
  ⟨by decide,
   lockfile_check_reacts_until_annotate envA sIdle pLock rfl rfl (by decide)⟩

/-- C6: a library change whose observed and computed hashes differ emits only
a UI refresh (no auto-snapshot request, no subprocess) when the lockfile is
unresolved, and otherwise hands the computed library hash to the
auto-snapshot scheduler. -/
theorem library_change_respects_pending_restore (env : PackratEnv)
    (s : PackratState) (p : SourceFilePath)
    (hrun : s.runningPackratAction = PACKRAT_ACTION_NONE)
    (hname : p.filename ≠ "packrat.lock")
    (hwithin : p.isWithin (libraryPath env) = true)
    (hkind : p.isDirectory = true ∨ p.filename = "DESCRIPTION")
    (hexcl : ¬(p.filename = "manipulate" ∨ p.filename = "rstudio" ∨
               p.parentFilename = "manipulate" ∨ p.parentFilename = "rstudio"))
    (hdiff : s.libraryObserved ≠ env.computedLibraryHash) :
    (isHashUnresolved env s HASH_TYPE_LOCKFILE = true →
       onFileChanged env s p = (s, [PackratEffect.packagesChanged])) ∧
    (isHashUnresolved env s HASH_TYPE_LOCKFILE = false →
       onFileChanged env s p =
         performAutoSnapshot env s env.computedLibraryHash) := by
  have hof : onFileChanged env s p =
      checkHashes env s HASH_TYPE_LIBRARY HASH_STATE_OBSERVED
        (onLibraryUpdate env s) := by
    have hx : p.filename ≠ "manipulate" ∧ p.filename ≠ "rstudio" ∧
        p.parentFilename ≠ "manipulate" ∧ p.parentFilename ≠ "rstudio" := by
      push_neg at hexcl
      exact hexcl
    rcases hkind with hk | hk <;>
      simp [onFileChanged, hrun, hname, hwithin, hk, hx.1, hx.2.1, hx.2.2.1,
        hx.2.2.2]
  constructor
  · intro hu
    rw [hof]
    simp [checkHashes, getHash, getStoredHash, computeLibraryHash, hdiff,
      onLibraryUpdate, hu, emitPackagesChanged]
  · intro hu
    rw [hof]
    simp [checkHashes, getHash, getStoredHash, computeLibraryHash, hdiff,
      onLibraryUpdate, hu]

/-- Witness for C6: with the lockfile unresolved, a library DESCRIPTION
change only refreshes the UI and no subprocess starts. -/
theorem library_change_respects_pending_restore_witness :
    isHashUnresolved envA sLockUnresolved HASH_TYPE_LOCKFILE = true ∧
    onFileChanged envA sLockUnresolved pLibDesc =
      (sLockUnresolved, [PackratEffect.packagesChanged]) :=
  ⟨by decide,
   (library_change_respects_pending_restore envA sLockUnresolved pLibDesc rfl
      (by decide) (by decide) (by decide) (by decide) (by decide)).1 (by decide)⟩

/-- C7: while a Packrat action is recorded as running, every file-change
event is a no-op (no reaction for either entity, no UI refresh, no snapshot
request), and the action's stop event for the current project always clears
the recorded action. -/
theorem file_events_suppressed_while_running (env : PackratEnv)
    (s : PackratState) (p : SourceFilePath) (project : List String)
    (actionName : String)
    (h1 : s.runningPackratAction ≠ PACKRAT_ACTION_NONE)
    (h2 : project = env.projectDir) :
    onFileChanged env s p = (s, []) ∧
    (onPackratAction env s project actionName false).1.runningPackratAction =
      PACKRAT_ACTION_NONE := by
  constructor
  · simp [onFileChanged, h1]
  · cases hc : s.runningPackratAction <;>
      simp [onPackratAction, h2, hc, resolveStateAfterAction_runningAction]

/-- Witness for C7: a running clean action suppresses a library DESCRIPTION
change, and its stop event clears the recorded action. -/
theorem file_events_suppressed_while_running_witness :
    sCleanRunning.runningPackratAction ≠ PACKRAT_ACTION_NONE ∧
    (onFileChanged envA sCleanRunning pLibDesc = (sCleanRunning, []) ∧
     (onPackratAction envA sCleanRunning ["proj"] "clean"
        false).1.runningPackratAction = PACKRAT_ACTION_NONE) :=
  ⟨by decide,
   file_events_suppressed_while_running envA sCleanRunning pLibDesc ["proj"]
     "clean" (by decide) rfl⟩

/-- Counterexample to C8: a directory two levels beneath the reserved
`manipulate` library subdirectory is, per the claim, ignored
(`claimClassify` yields none), yet `onFileChanged` reacts to it — it matches
the library criteria, escapes the one-level exclusion check, and even starts
an auto-snapshot subprocess. -/
theorem reserved_depth_exclusion_cex :
    claimClassify envA pReservedDeep = none ∧
    onFileChanged envA sIdle pReservedDeep =
      ({ sIdle with autoSnapshotTarget := some "bbbb" },
       [PackratEffect.startAutoSnapshot "bbbb"]) := by
  decide

/-- C8 (amended): with no action running, a path is handled as a LOCKFILE
change iff its filename is exactly the lockfile filename; otherwise as a
LIBRARY change iff it lies within the library root and is a directory or
named exactly "DESCRIPTION", except that it is ignored iff its own filename
or its immediate parent's filename is one of the reserved names (the
exclusion does not apply at deeper nesting beneath a reserved directory);
all other paths are ignored — i.e. `onFileChanged` implements
`codeClassify`. -/
theorem onFileChanged_matches_codeClassify (env : PackratEnv)
    (s : PackratState) (p : SourceFilePath)
    (hrun : s.runningPackratAction = PACKRAT_ACTION_NONE) :
    onFileChanged env s p =
      match codeClassify env p with
      | none => (s, [])
      | some HASH_TYPE_LOCKFILE =>
          checkHashes env s HASH_TYPE_LOCKFILE HASH_STATE_OBSERVED
            (onLockfileUpdate env s)
      | some HASH_TYPE_LIBRARY =>
          checkHashes env s HASH_TYPE_LIBRARY HASH_STATE_OBSERVED
            (onLibraryUpdate env s) := by
  simp only [onFileChanged, codeClassify, hrun, ne_eq, not_true_eq_false,
    if_false, ite_false]
  split_ifs <;> simp

/-- Witness for C8 (amended): the lockfile path classifies as LOCKFILE and
`onFileChanged` runs the lockfile hash check on it. -/
theorem onFileChanged_matches_codeClassify_witness :
    codeClassify envA pLock = some HASH_TYPE_LOCKFILE ∧
    onFileChanged envA sIdle pLock =
      checkHashes envA sIdle HASH_TYPE_LOCKFILE HASH_STATE_OBSERVED
        (onLockfileUpdate envA sIdle) := by
  constructor
  · decide
  · have h := onFileChanged_matches_codeClassify envA sIdle pLock rfl
    simpa [show codeClassify envA pLock = some HASH_TYPE_LOCKFILE from by decide]
      using h

/-- C9: the file-change path writes no persisted hash state — all four
stored entries are unchanged by `onFileChanged`; persisted RESOLVED is
untouched by the annotate path, and persisted OBSERVED is untouched by the
resolution path and by every other entry point (action lifecycle events and
subprocess completion), so OBSERVED is written only by annotation and
RESOLVED only by resolution. -/
theorem hash_store_write_frame :
    (∀ (env : PackratEnv) (s : PackratState) (p : SourceFilePath),
       storedHashes (onFileChanged env s p).1 = storedHashes s) ∧
    (∀ (env : PackratEnv) (s : PackratState),
       resolvedHashes (annotatePendingActions env s).1 = resolvedHashes s) ∧
    (∀ (env : PackratEnv) (s : PackratState) (action : PackratActionType)
        (hashType : PackratHashType),
       observedHashes (resolveStateAfterAction env s action hashType).1 =
         observedHashes s) ∧
    (∀ (env : PackratEnv) (s : PackratState) (project : List String)
        (actionName : String) (running : Bool),
       observedHashes (onPackratAction env s project actionName running).1 =
         observedHashes s) ∧
    (∀ (env : PackratEnv) (s : PackratState) (exitStatus : Int),
       observedHashes (AutoSnapshot.onCompleted env s exitStatus).1 =
         observedHashes s) := by
  refine ⟨?_, ?_, ?_, ?_, ?_⟩
  · intro env s p
    unfold onFileChanged
    split_ifs <;>
      first
        | rfl
        | exact checkHashes_storedHashes env s _ _ _ (fun a b => rfl)
        | exact checkHashes_storedHashes env s _ _ _
            (fun a b => onLibraryUpdate_storedHashes env s a b)
  · intro env s
    exact annotatePendingActions_resolvedHashes env s
  · intro env s action hashType
    exact resolveStateAfterAction_observedHashes env s action hashType
  · intro env s project actionName running
    unfold onPackratAction
    split_ifs <;>
      first
        | rfl
        | (cases hc : s.runningPackratAction <;> dsimp only <;>
            first
              | rfl
              | exact resolveStateAfterAction_observedHashes _ _ _ _)
  · intro env s exitStatus
    unfold AutoSnapshot.onCompleted pendingSnapshot
    dsimp only
    split_ifs <;>
      first
        | rfl
        | exact congrArg Prod.fst (performAutoSnapshot_storedHashes _ _ _)
        | exact resolveStateAfterAction_observedHashes _ _ _ _

/-- C10: a stop event for the current project resolves based solely on the
previously recorded running action (the stop event's own action name is
ignored — any two names produce the same result); the recorded action is
always cleared; and a recorded none, clean, or unknown action produces no
resolution and no UI refresh. -/
theorem onPackratAction_stop_uses_recorded_action (env : PackratEnv)
    (s : PackratState) (project : List String) (actionName : String)
    (hproj : project = env.projectDir) :
    ((onPackratAction env s project actionName false).1.runningPackratAction =
       PACKRAT_ACTION_NONE) ∧
    (∀ other : String,
       onPackratAction env s project other false =
         onPackratAction env s project actionName false) ∧
    ((s.runningPackratAction = PACKRAT_ACTION_NONE ∨
      s.runningPackratAction = PACKRAT_ACTION_CLEAN ∨
      s.runningPackratAction = PACKRAT_ACTION_UNKNOWN) →
       onPackratAction env s project actionName false =
         ({ s with runningPackratAction := PACKRAT_ACTION_NONE }, [])) ∧
    (s.runningPackratAction = PACKRAT_ACTION_RESTORE →
       onPackratAction env s project actionName false =
         resolveStateAfterAction env
           { s with runningPackratAction := PACKRAT_ACTION_NONE }
           PACKRAT_ACTION_RESTORE HASH_TYPE_LOCKFILE) ∧
    (s.runningPackratAction = PACKRAT_ACTION_SNAPSHOT →
       onPackratAction env s project actionName false =
         resolveStateAfterAction env
           { s with runningPackratAction := PACKRAT_ACTION_NONE }
           PACKRAT_ACTION_SNAPSHOT HASH_TYPE_LIBRARY) := by
  refine ⟨?_, fun other => ?_, ?_, fun hc => ?_, fun hc => ?_⟩
  · cases hc : s.runningPackratAction <;>
      simp [onPackratAction, hproj, hc, resolveStateAfterAction_runningAction]
  · simp [onPackratAction, hproj]
  · intro hc
    rcases hc with hc | hc | hc <;> simp [onPackratAction, hproj, hc]
  · simp [onPackratAction, hproj, hc]
  · simp [onPackratAction, hproj, hc]

/-- Witness for C10: a stop event named "snapshot" while a clean action is
recorded clears the record and performs no resolution and no refresh. -/
theorem onPackratAction_stop_uses_recorded_action_witness :
    (["proj"] : List String) = envA.projectDir ∧
    sCleanRunning.runningPackratAction = PACKRAT_ACTION_CLEAN ∧
    onPackratAction envA sCleanRunning ["proj"] "snapshot" false =
      ({ sCleanRunning with runningPackratAction := PACKRAT_ACTION_NONE }, []) :=
  ⟨rfl, rfl,
   (onPackratAction_stop_uses_recorded_action envA sCleanRunning ["proj"]
      "snapshot" rfl).2.2.1 (Or.inr (Or.inl rfl))⟩

end SessionPackrat
